import Mathlib

/-!
Shallow embedding of `src/msfs_atc_gui.py` (MSFS Offline ATC Simulator).

Modelling conventions, matching the Python source:
* Python floats appear only as altitudes, coordinates, trait values and
  distances; every operation performed on them in the embedded code is
  arithmetic/comparison, so they are modelled as `ℚ`.
* `AircraftState.distance_to` is the haversine great-circle formula over
  floats (transcendental); every claim below is insensitive to the actual
  metric, so distance is abstracted as an explicit oracle parameter
  `DistOracle` and all theorems hold for every oracle, in particular for
  the great-circle distance.
* The global `random` module is modelled by explicit outcome parameters:
  a stream of octal digits for `generate_squawk_code`, a drawn integer for
  `generate_frequency` (with the `randint` bounds as hypotheses), and an
  `Rng` record per `modify_phrase` call.
* `time.sleep` calls pace speech output only and have no effect on any
  state read by the core; they are noted in comments and not modelled.
* The GUI, TTS, SimConnect and SimBrief-HTTP classes are I/O adapters and
  are outside every claim; they are not embedded.
-/

/-- The 18-member flight phase enumeration `ATCPhase`, in source order. -/
inductive ATCPhase where
  | COLD_AND_DARK
  | CLEARANCE_DELIVERY
  | PUSHBACK_APPROVED
  | TAXI_OUT
  | LINEUP_CLEARANCE
  | TAKEOFF_CLEARANCE
  | DEPARTURE
  | CLIMB
  | CRUISE
  | TOD_ADVISORY
  | DESCENT
  | APPROACH
  | FINAL_APPROACH
  | LANDING_CLEARANCE
  | LANDED
  | TAXI_IN
  | PARKING
  | COMPLETE
  deriving DecidableEq, Repr

/-- Position of a phase in the documented 18-phase order (declaration order
of the `ATCPhase` enumeration). -/
def phaseIdx : ATCPhase → ℕ
  | .COLD_AND_DARK => 0
  | .CLEARANCE_DELIVERY => 1
  | .PUSHBACK_APPROVED => 2
  | .TAXI_OUT => 3
  | .LINEUP_CLEARANCE => 4
  | .TAKEOFF_CLEARANCE => 5
  | .DEPARTURE => 6
  | .CLIMB => 7
  | .CRUISE => 8
  | .TOD_ADVISORY => 9
  | .DESCENT => 10
  | .APPROACH => 11
  | .FINAL_APPROACH => 12
  | .LANDING_CLEARANCE => 13
  | .LANDED => 14
  | .TAXI_IN => 15
  | .PARKING => 16
  | .COMPLETE => 17

/-- The six controller positions (`ATCPosition`). -/
inductive ATCPosition where
  | CLEARANCE_DELIVERY
  | GROUND
  | TOWER
  | DEPARTURE
  | CENTER
  | APPROACH
  deriving DecidableEq, Repr

/-- The six airspace classes (`AirspaceClass`). -/
inductive AirspaceClass where
  | CLASS_A
  | CLASS_B
  | CLASS_C
  | CLASS_D
  | CLASS_E
  | CLASS_G
  deriving DecidableEq, Repr

/-- `FlightPlan` dataclass.  `cruise_altitude` is a Python `int`,
`distance_nm` a float. -/
structure FlightPlan where
  callsign : String
  departure_icao : String
  departure_runway : String
  arrival_icao : String
  arrival_runway : String
  sid : String
  star : String
  cruise_altitude : ℤ
  cruise_altitude_fl : String
  route : String
  distance_nm : ℚ
  squawk : String
  deriving DecidableEq, Repr

/-- `FlightPlan.get_tod_distance`:
`altitude_to_lose = cruise_altitude - 3000; return (altitude_to_lose / 1000) * 3 + 10`
(Python `/` is true division, hence the `ℚ` arithmetic). -/
def FlightPlan.get_tod_distance (fp : FlightPlan) : ℚ :=
  let altitude_to_lose : ℚ := (fp.cruise_altitude : ℚ) - 3000
  (altitude_to_lose / 1000) * 3 + 10

/-- `AircraftState` dataclass (one telemetry sample). -/
structure AircraftState where
  latitude : ℚ
  longitude : ℚ
  altitude_msl : ℚ
  altitude_agl : ℚ
  groundspeed : ℤ
  heading : ℤ
  on_ground : Bool
  vertical_speed : ℚ
  deriving DecidableEq, Repr

/-- Distance oracle abstracting `AircraftState.distance_to(lat, lon)`
(haversine great-circle distance in nm).  All theorems below are proved for
every oracle; witnesses use `flatDist`. -/
def DistOracle : Type := AircraftState → ℚ × ℚ → ℚ

/-- A concrete computable oracle (taxicab metric) used only to instantiate
witness theorems; the source's haversine metric satisfies every theorem the
same way since they are proved for all oracles. -/
def flatDist : DistOracle := fun a c => |a.latitude - c.1| + |a.longitude - c.2|

/-- Flight phase threshold constants (module-level configuration). -/
def TAKEOFF_ALTITUDE : ℚ := 100
/-- `INITIAL_CLIMB_ALTITUDE = 1500`. -/
def INITIAL_CLIMB_ALTITUDE : ℚ := 1500
/-- `APPROACH_ALTITUDE = 10000`. -/
def APPROACH_ALTITUDE : ℚ := 10000
/-- `FINAL_APPROACH_ALTITUDE = 3000`. -/
def FINAL_APPROACH_ALTITUDE : ℚ := 3000
/-- `LANDING_SPEED = 60`. -/
def LANDING_SPEED : ℤ := 60

/-- Python `str(d)` for an octal digit `d` drawn by `random.randint(0, 7)`. -/
def pyStrDigit (d : Fin 8) : Char := Char.ofNat (48 + d.val)

/-- The reserved transponder codes `{0000, 7500, 7600, 7700}` avoided by
`generate_squawk_code`. -/
def reserved_codes : List String := ["0000", "7500", "7600", "7700"]

/-- `generate_squawk_code`: `while True:` draw four octal digits, retry while
the code is reserved.  The random source is modelled as the list of drawn
digits; a list too short to finish a draw models non-termination (`none`). -/
def generate_squawk_code : List (Fin 8) → Option String
  | d1 :: d2 :: d3 :: d4 :: rest =>
    let code : String := String.mk [pyStrDigit d1, pyStrDigit d2, pyStrDigit d3, pyStrDigit d4]
    if code ∈ reserved_codes then generate_squawk_code rest else some code
  | _ => none

/-- The `freq_ranges` dictionary of `generate_frequency` together with its
`.get(freq_type, (121, 500, 900))` default. -/
def freq_ranges (freq_type : String) : ℕ × ℕ × ℕ :=
  if freq_type = "clearance" then (121, 700, 900)
  else if freq_type = "ground" then (121, 600, 900)
  else if freq_type = "tower" then (118, 100, 900)
  else if freq_type = "departure" then (119, 100, 900)
  else if freq_type = "approach" then (120, 100, 900)
  else if freq_type = "center" then (132, 100, 900)
  else (121, 500, 900)

/-- Python `"{:03d}".format n` (zero-pad to width 3, never truncates). -/
def pad3 (n : ℕ) : String :=
  if n < 10 then "00" ++ Nat.repr n
  else if n < 100 then "0" ++ Nat.repr n
  else Nat.repr n

/-- `generate_frequency(freq_type)`.  `r` models the `random.randint(min_dec,
max_dec)` draw (theorems carry its bounds as hypotheses);
`decimal = (decimal // 25) * 25` snaps to the 25 kHz grid and the result is
rendered as `f"{base}.{decimal:03d}"`. -/
def generate_frequency (freq_type : String) (r : ℕ) : String :=
  let p := freq_ranges freq_type
  let decimal := r / 25 * 25
  Nat.repr p.1 ++ "." ++ pad3 decimal

/-- Python substring test `pat in s`, over character lists. -/
def containsSub : List Char → List Char → Bool
  | [], pat => pat.isEmpty
  | c :: rest, pat => pat.isPrefixOf (c :: rest) || containsSub rest pat

/-- Worker for `pyReplace`; `skip` counts pattern characters still to be
consumed after a replacement has been emitted (structural recursion so the
kernel can evaluate it). -/
def pyReplaceAux (pat rep : List Char) : List Char → ℕ → List Char
  | [], _ => []
  | _ :: rest, skip + 1 => pyReplaceAux pat rep rest skip
  | c :: rest, 0 =>
    if pat ≠ [] ∧ pat.isPrefixOf (c :: rest) then
      rep ++ pyReplaceAux pat rep rest (pat.length - 1)
    else
      c :: pyReplaceAux pat rep rest 0

/-- Python `s.replace(pat, rep)`: replace all non-overlapping occurrences,
scanning left to right.  (The guard on `pat ≠ []` is never exercised: the
source only replaces non-empty literals.) -/
def pyReplace (s pat rep : List Char) : List Char := pyReplaceAux pat rep s 0

/-- String version of `pyReplace`. -/
def pyReplaceStr (s pat rep : String) : String :=
  String.mk (pyReplace s.toList pat.toList rep.toList)

/-- String version of `containsSub`. -/
def pyContains (s pat : String) : Bool := containsSub s.toList pat.toList

/-- Python `s.lower()` (ASCII is all the source ever lowers). -/
def pyLower (s : String) : String := String.mk (s.toList.map Char.toLower)

/-- The `NATO_PHONETIC` table (`char in NATO_PHONETIC` / `NATO_PHONETIC[char]`). -/
def natoLookup : Char → Option String
  | 'A' => some "Alpha"
  | 'B' => some "Bravo"
  | 'C' => some "Charlie"
  | 'D' => some "Delta"
  | 'E' => some "Echo"
  | 'F' => some "Foxtrot"
  | 'G' => some "Golf"
  | 'H' => some "Hotel"
  | 'I' => some "India"
  | 'J' => some "Juliet"
  | 'K' => some "Kilo"
  | 'L' => some "Lima"
  | 'M' => some "Mike"
  | 'N' => some "November"
  | 'O' => some "Oscar"
  | 'P' => some "Papa"
  | 'Q' => some "Quebec"
  | 'R' => some "Romeo"
  | 'S' => some "Sierra"
  | 'T' => some "Tango"
  | 'U' => some "Uniform"
  | 'V' => some "Victor"
  | 'W' => some "Whiskey"
  | 'X' => some "X-ray"
  | 'Y' => some "Yankee"
  | 'Z' => some "Zulu"
  | '0' => some "Zero"
  | '1' => some "One"
  | '2' => some "Two"
  | '3' => some "Three"
  | '4' => some "Four"
  | '5' => some "Five"
  | '6' => some "Six"
  | '7' => some "Seven"
  | '8' => some "Eight"
  | '9' => some "Niner"
  | _ => none

/-- `convert_to_nato`: map each character of `text.upper()` to its phonetic
word, skip whitespace, keep unknown characters verbatim, then
`' '.join(result)`. -/
def convert_to_nato (text : String) : String :=
  let step : Char → List String := fun c =>
    match natoLookup c with
    | some w => [w]
    | none => if c.isWhitespace then [] else [String.mk [c]]
  " ".intercalate ((text.toList.map Char.toUpper).map step).flatten

/-- The airline prefixes recognised by `format_callsign_nato`. -/
def airline_prefixes : List String :=
  ["SPEEDBIRD", "LUFTHANSA", "UNITED", "DELTA", "AMERICAN"]

/-- Python `s.capitalize()`: first character upper-cased, the rest lowered. -/
def pyCapitalize (s : String) : String :=
  match s.toList with
  | [] => ""
  | c :: rest => String.mk (c.toUpper :: rest.map Char.toLower)

/-- `format_callsign_nato`: the first matching airline prefix (Python loop
with early return = `find?`) is rendered literally, the remainder of the
callsign phonetically. -/
def format_callsign_nato (callsign : String) : String :=
  match airline_prefixes.find? (fun p => p.toList.isPrefixOf callsign.toList) with
  | some p =>
    pyCapitalize p ++ " " ++ convert_to_nato (String.mk (callsign.toList.drop p.length))
  | none => convert_to_nato callsign

/-- `ControllerPersonality`: the four continuous traits plus speech rate.
Python compares these objects by identity; all instances the program builds
have pairwise distinct `position_name`s, so structural equality coincides. -/
structure ControllerPersonality where
  position_name : String
  formality : ℚ
  friendliness : ℚ
  verbosity : ℚ
  strictness : ℚ
  speech_rate : ℚ
  deriving DecidableEq, Repr

/-- Outcomes of the `random` draws a single `modify_phrase` call can make:
`lt03` models `random.random() < 0.3`, `choice3` the `random.choice` index
among the three alternate closings, `lt04` models `random.random() < 0.4`. -/
structure Rng where
  lt03 : Bool
  choice3 : Fin 3
  lt04 : Bool
  deriving DecidableEq, Repr

/-- The three alternate closings of the friendliness rule. -/
def alternate_closings : List String := ["safe flight", "have a good one", "fly safe"]

/-- `ControllerPersonality.modify_phrase` (the unused `context` parameter of
the source is omitted): the three personality rules applied in source
order.  The friendliness test lowers the phrase before searching but the
replacement is on the original phrase, exactly as in the source. -/
def ControllerPersonality.modify_phrase (p : ControllerPersonality)
    (base_phrase : String) (rng : Rng) : String :=
  let phrase := base_phrase
  -- Friendly variations
  let phrase :=
    if p.friendliness > 0.7 ∧ pyContains (pyLower phrase) "good day" = true then
      if rng.lt03 then
        pyReplaceStr phrase "good day" (alternate_closings.get ⟨rng.choice3.val, rng.choice3.isLt⟩)
      else phrase
    else phrase
  -- Strict/concise variations (remove courtesy words)
  let phrase :=
    if p.strictness > 0.7 ∧ p.verbosity < 0.4 then
      pyReplaceStr (pyReplaceStr phrase ", advise ready to taxi" "") " please" ""
    else phrase
  -- Verbose variations (add extra info)
  let phrase :=
    if p.verbosity > 0.7 then
      if pyContains (pyLower phrase) "maintain" = true ∧ rng.lt04 = true then
        pyReplaceStr phrase "." ", thank you."
      else phrase
    else phrase
  phrase

/-- The `CONTROLLER_PERSONALITIES` table (one shared instance per position;
`speech_rate` takes its default `1.0` in every entry). -/
def CONTROLLER_PERSONALITIES : ATCPosition → ControllerPersonality
  | .CLEARANCE_DELIVERY => ⟨"Clearance Delivery", 0.9, 0.5, 0.8, 0.7, 1.0⟩
  | .GROUND => ⟨"Ground Control", 0.8, 0.4, 0.3, 0.9, 1.0⟩
  | .TOWER => ⟨"Tower", 0.8, 0.6, 0.5, 0.8, 1.0⟩
  | .DEPARTURE => ⟨"Departure", 0.7, 0.6, 0.6, 0.6, 1.0⟩
  | .CENTER => ⟨"Center", 0.6, 0.7, 0.7, 0.5, 1.0⟩
  | .APPROACH => ⟨"Approach", 0.7, 0.7, 0.6, 0.7, 1.0⟩

/-- The `AIRPORT_DATABASE` entries in dict insertion order:
(icao, name, lat, lon). -/
def AIRPORT_DATABASE : List (String × String × ℚ × ℚ) :=
  [("EGLL", "London Heathrow", 51.4700, -0.4543),
   ("EDDF", "Frankfurt", 50.0379, 8.5622),
   ("KJFK", "Kennedy", 40.6413, -73.7781),
   ("KLAX", "Los Angeles", 33.9416, -118.4085),
   ("LFPG", "Paris CDG", 49.0097, 2.5479)]

/-- `AIRPORT_DATABASE.get(icao, default)`:  lookup by ICAO code. -/
def airportLookup (icao : String) : Option (String × ℚ × ℚ) :=
  (AIRPORT_DATABASE.find? (fun e => e.1 = icao)).map (·.2)

/-- `AirspaceVolume` dataclass. -/
structure AirspaceVolume where
  name : String
  classification : AirspaceClass
  center_lat : ℚ
  center_lon : ℚ
  radius_nm : ℚ
  floor_ft : ℚ
  ceiling_ft : ℚ
  deriving DecidableEq, Repr

/-- `AirspaceMonitor._init_default_airspaces`: the fixed, ordered volume
list — one global Class A volume, one Class B volume per database airport
(in database order), one global Class E volume.  Class G is the implicit
default. -/
def default_airspace_volumes : List AirspaceVolume :=
  [⟨"High Altitude Airspace", .CLASS_A, 0, 0, 999999, 18000, 60000⟩] ++
  AIRPORT_DATABASE.map (fun e =>
    ⟨e.2.1 ++ " Class B", .CLASS_B, e.2.2.1, e.2.2.2, 30, 0, 10000⟩) ++
  [⟨"Controlled Airspace", .CLASS_E, 0, 0, 999999, 1200, 17999⟩]

/-- `AirspaceMonitor._is_in_volume`: altitude inside the floor/ceiling band
and within `radius_nm` of the center by `distance_to`. -/
def is_in_volume (d : DistOracle) (aircraft_state : AircraftState)
    (volume : AirspaceVolume) : Bool :=
  decide (volume.floor_ft ≤ aircraft_state.altitude_msl ∧
          aircraft_state.altitude_msl ≤ volume.ceiling_ft) &&
  decide (d aircraft_state (volume.center_lat, volume.center_lon) ≤ volume.radius_nm)

/-- `AirspaceMonitor._determine_airspace` over an explicit volume list:
altitude-only Class A check first, then the first matching volume in
construction order (the Python `for` loop with early return = `find?`),
else Class G. -/
def determine_airspace (d : DistOracle) (volumes : List AirspaceVolume)
    (aircraft_state : AircraftState) : AirspaceClass :=
  if aircraft_state.altitude_msl ≥ 18000 then .CLASS_A
  else
    match volumes.find? (fun volume => is_in_volume d aircraft_state volume) with
    | some volume => volume.classification
    | none => .CLASS_G

/-- `AirspaceMonitor._determine_airspace` as the monitor calls it: the
volume list is always the one built by `_init_default_airspaces`. -/
def monitor_determine_airspace (d : DistOracle) (aircraft_state : AircraftState) : AirspaceClass :=
  determine_airspace d default_airspace_volumes aircraft_state

/-- `AirspaceMonitor.check_airspace`: recompute, report whether the class
changed, and store the new value (the monitor's only mutable state is the
current class). -/
def check_airspace (d : DistOracle) (current_airspace : AirspaceClass)
    (aircraft_state : AircraftState) : AirspaceClass × Bool :=
  let new_airspace := monitor_determine_airspace d aircraft_state
  (new_airspace, decide (new_airspace ≠ current_airspace))

/-- `AirspaceMonitor.get_entry_message`: fixed table keyed by class, each
entry interpolating the callsign. -/
def get_entry_message (airspace : AirspaceClass) (callsign : String) : String :=
  match airspace with
  | .CLASS_A => callsign ++ ", entering Class Alpha airspace, flight level one eight zero and above."
  | .CLASS_B => callsign ++ ", entering Class Bravo airspace, maintain assigned altitude."
  | .CLASS_C => callsign ++ ", Class Charlie airspace, radar contact."
  | .CLASS_D => callsign ++ ", entering Class Delta airspace."
  | .CLASS_E => callsign ++ ", controlled airspace."
  | .CLASS_G => callsign ++ ", uncontrolled airspace, VFR advisories available."

/-- `ATCSector` dataclass.  As with personalities, Python compares these by
field tuples; the embedded structural equality coincides. -/
structure ATCSector where
  name : String
  position : ATCPosition
  frequency : String
  center_lat : ℚ
  center_lon : ℚ
  radius_nm : ℚ
  alt_min : ℚ
  alt_max : ℚ
  personality : ControllerPersonality
  deriving DecidableEq, Repr

/-- `ATCSector.is_in_sector`: altitude within the band and within
`radius_nm` of the center. -/
def ATCSector.is_in_sector (sec : ATCSector) (d : DistOracle)
    (aircraft_state : AircraftState) : Bool :=
  decide (sec.alt_min ≤ aircraft_state.altitude_msl ∧
          aircraft_state.altitude_msl ≤ sec.alt_max) &&
  decide (d aircraft_state (sec.center_lat, sec.center_lon) ≤ sec.radius_nm)

/-- `ATCSector.distance_to_boundary`: `radius_nm - distance_to_center`. -/
def ATCSector.distance_to_boundary (sec : ATCSector) (d : DistOracle)
    (aircraft_state : AircraftState) : ℚ :=
  sec.radius_nm - d aircraft_state (sec.center_lat, sec.center_lon)

/-- `FrequencyManager.handoff_threshold_nm`: an instance field assigned `15`
in `__init__` and never reassigned anywhere, embedded as a constant. -/
def handoff_threshold_nm : ℚ := 15

/-- The mutable state of a `FrequencyManager` (the `pending_handoff` field
is written `None` in `__init__` and never read or written again, so it is
omitted; `handoff_threshold_nm` is the constant above). -/
structure FreqState where
  active_frequency : Option String
  active_sector : Option ATCSector
  sectors : List ATCSector
  deriving DecidableEq, Repr

/-- `FrequencyManager._init_sectors`: the fixed-order eight-sector list
derived from the flight plan.  `rdraw i` models the `random.randint` draw
inside the i-th `generate_frequency` call (call order: departure clearance,
ground, tower, departure-control, center, arrival approach, tower,
ground). -/
def init_sectors (flight_plan : FlightPlan) (rdraw : Fin 8 → ℕ) : List ATCSector :=
  let dep := (airportLookup flight_plan.departure_icao).getD ("Unknown", 0, 0)
  let arr := (airportLookup flight_plan.arrival_icao).getD ("Unknown", 0, 0)
  let mid_lat := (dep.2.1 + arr.2.1) / 2
  let mid_lon := (dep.2.2 + arr.2.2) / 2
  [⟨flight_plan.departure_icao ++ " Clearance", .CLEARANCE_DELIVERY,
      generate_frequency "clearance" (rdraw 0), dep.2.1, dep.2.2, 5, 0, 1000,
      CONTROLLER_PERSONALITIES .CLEARANCE_DELIVERY⟩,
   ⟨flight_plan.departure_icao ++ " Ground", .GROUND,
      generate_frequency "ground" (rdraw 1), dep.2.1, dep.2.2, 5, 0, 500,
      CONTROLLER_PERSONALITIES .GROUND⟩,
   ⟨flight_plan.departure_icao ++ " Tower", .TOWER,
      generate_frequency "tower" (rdraw 2), dep.2.1, dep.2.2, 10, 0, 3000,
      CONTROLLER_PERSONALITIES .TOWER⟩,
   ⟨flight_plan.departure_icao ++ " Departure", .DEPARTURE,
      generate_frequency "departure" (rdraw 3), dep.2.1, dep.2.2, 40, 500, 18000,
      CONTROLLER_PERSONALITIES .DEPARTURE⟩,
   ⟨"Center", .CENTER,
      generate_frequency "center" (rdraw 4), mid_lat, mid_lon, 200, 18000, 60000,
      CONTROLLER_PERSONALITIES .CENTER⟩,
   ⟨flight_plan.arrival_icao ++ " Approach", .APPROACH,
      generate_frequency "approach" (rdraw 5), arr.2.1, arr.2.2, 40, 1000, 18000,
      CONTROLLER_PERSONALITIES .APPROACH⟩,
   ⟨flight_plan.arrival_icao ++ " Tower", .TOWER,
      generate_frequency "tower" (rdraw 6), arr.2.1, arr.2.2, 10, 0, 3000,
      CONTROLLER_PERSONALITIES .TOWER⟩,
   ⟨flight_plan.arrival_icao ++ " Ground", .GROUND,
      generate_frequency "ground" (rdraw 7), arr.2.1, arr.2.2, 5, 0, 500,
      CONTROLLER_PERSONALITIES .GROUND⟩]

/-- `FrequencyManager.set_active_frequency`: linear search by frequency
(the first matching sector wins); on a miss, state unchanged and `false`. -/
def set_active_frequency (fm : FreqState) (frequency : String) : FreqState × Bool :=
  match fm.sectors.find? (fun sec => sec.frequency = frequency) with
  | some sec => ({ fm with active_frequency := some frequency, active_sector := some sec }, true)
  | none => (fm, false)

/-- `FrequencyManager.find_appropriate_sector`: first sector (list order)
whose membership test succeeds. -/
def find_appropriate_sector (d : DistOracle) (fm : FreqState)
    (aircraft_state : AircraftState) : Option ATCSector :=
  fm.sectors.find? (fun sec => sec.is_in_sector d aircraft_state)

/-- `FrequencyManager.check_handoff_needed`: no active sector → none;
otherwise surface the first matching sector as handoff target only when the
aircraft is within `handoff_threshold_nm` of the active sector's boundary
and the target differs from the active sector. -/
def check_handoff_needed (d : DistOracle) (fm : FreqState)
    (aircraft_state : AircraftState) : Option ATCSector :=
  match fm.active_sector with
  | none => none
  | some active =>
    if active.distance_to_boundary d aircraft_state < handoff_threshold_nm then
      match find_appropriate_sector d fm aircraft_state with
      | some next_sector => if next_sector ≠ active then some next_sector else none
      | none => none
    else none

/-- Python `int(q)` (truncation toward zero), used for `int(distance_to_dest)`. -/
def pyInt (q : ℚ) : ℤ := if 0 ≤ q then ⌊q⌋ else ⌈q⌉

/-- An emitted ATC event as handed to the announcer callback: message text
and issuing position.  (The callback also receives the phase current at
emission time; no claim references it, so it is not recorded.) -/
def Emit : Type := String × ATCPosition

/-- `ATCPhraseology.clearance_delivery`. -/
def clearance_delivery (fp : FlightPlan) (departure_freq : String)
    (personality : Option ControllerPersonality) (rng : Rng) : Emit :=
  let callsign := format_callsign_nato fp.callsign
  let squawk := convert_to_nato fp.squawk
  let message := callsign ++ ", Clearance Delivery, cleared to " ++ fp.arrival_icao ++
    " via " ++ fp.sid ++ " departure, flight planned route, " ++
    "climb and maintain flight level " ++ fp.cruise_altitude_fl ++
    ", departure frequency " ++ departure_freq ++ ", squawk " ++ squawk ++ "."
  let message := match personality with
    | some p => p.modify_phrase message rng
    | none => message
  (message, ATCPosition.CLEARANCE_DELIVERY)

/-- `ATCPhraseology.pushback_clearance`. -/
def pushback_clearance (callsign : String)
    (personality : Option ControllerPersonality) (rng : Rng) : Emit :=
  let message := format_callsign_nato callsign ++
    ", pushback approved, tail north, advise ready to taxi."
  let message := match personality with
    | some p => p.modify_phrase message rng
    | none => message
  (message, ATCPosition.GROUND)

/-- The base text of `ATCPhraseology.frequency_handoff`, before personality
modulation.  Note the capitalised closing pleasantry `Good day.`. -/
def frequency_handoff_message (callsign next_controller next_freq : String) : String :=
  format_callsign_nato callsign ++ ", contact " ++ next_controller ++ " " ++
    next_freq ++ ". Good day."

/-- `ATCPhraseology.frequency_handoff`.  The returned `CENTER` position is a
placeholder the caller overrides. -/
def frequency_handoff (callsign next_controller next_freq : String)
    (personality : Option ControllerPersonality) (rng : Rng) : Emit :=
  let message := frequency_handoff_message callsign next_controller next_freq
  let message := match personality with
    | some p => p.modify_phrase message rng
    | none => message
  (message, ATCPosition.CENTER)

/-- `ATCPhraseology.check_in_response`. -/
def check_in_response (callsign altitude_fl : String)
    (personality : Option ControllerPersonality) (rng : Rng) : Emit :=
  let message := format_callsign_nato callsign ++ ", radar contact. Maintain flight level " ++
    altitude_fl ++ "."
  let message := match personality with
    | some p => p.modify_phrase message rng
    | none => message
  (message, ATCPosition.CENTER)

/-- `ATCPhraseology.taxi_out`. -/
def taxi_out (callsign runway : String)
    (personality : Option ControllerPersonality) (rng : Rng) : Emit :=
  let message := format_callsign_nato callsign ++ ", taxi to runway " ++
    convert_to_nato runway ++ " via taxiway Alpha, hold short."
  let message := match personality with
    | some p => p.modify_phrase message rng
    | none => message
  (message, ATCPosition.GROUND)

/-- `ATCPhraseology.lineup_clearance`. -/
def lineup_clearance (callsign runway : String)
    (personality : Option ControllerPersonality) (rng : Rng) : Emit :=
  let message := format_callsign_nato callsign ++ ", runway " ++
    convert_to_nato runway ++ ", line up and wait."
  let message := match personality with
    | some p => p.modify_phrase message rng
    | none => message
  (message, ATCPosition.TOWER)

/-- `ATCPhraseology.takeoff_clearance`. -/
def takeoff_clearance (callsign runway : String)
    (personality : Option ControllerPersonality) (rng : Rng) : Emit :=
  let message := format_callsign_nato callsign ++ ", runway " ++
    convert_to_nato runway ++ ", wind calm, cleared for takeoff."
  let message := match personality with
    | some p => p.modify_phrase message rng
    | none => message
  (message, ATCPosition.TOWER)

/-- `ATCPhraseology.contact_departure`. -/
def contact_departure (callsign freq : String)
    (personality : Option ControllerPersonality) (rng : Rng) : Emit :=
  let message := format_callsign_nato callsign ++ ", contact departure " ++ freq ++ "."
  let message := match personality with
    | some p => p.modify_phrase message rng
    | none => message
  (message, ATCPosition.TOWER)

/-- `ATCPhraseology.climb_clearance`. -/
def climb_clearance (callsign altitude_fl : String)
    (personality : Option ControllerPersonality) (rng : Rng) : Emit :=
  let message := format_callsign_nato callsign ++ ", climb flight level " ++ altitude_fl ++ "."
  let message := match personality with
    | some p => p.modify_phrase message rng
    | none => message
  (message, ATCPosition.DEPARTURE)

/-- `ATCPhraseology.cruise_check`. -/
def cruise_check (callsign altitude_fl : String)
    (personality : Option ControllerPersonality) (rng : Rng) : Emit :=
  let message := format_callsign_nato callsign ++ ", maintaining flight level " ++
    altitude_fl ++ "."
  let message := match personality with
    | some p => p.modify_phrase message rng
    | none => message
  (message, ATCPosition.CENTER)

/-- `ATCPhraseology.top_of_descent`. -/
def top_of_descent (callsign : String) (distance : ℤ)
    (personality : Option ControllerPersonality) (rng : Rng) : Emit :=
  let message := format_callsign_nato callsign ++ ", top of descent in " ++
    toString distance ++ " miles."
  let message := match personality with
    | some p => p.modify_phrase message rng
    | none => message
  (message, ATCPosition.CENTER)

/-- `ATCPhraseology.descent_clearance`. -/
def descent_clearance (callsign : String) (altitude : ℤ)
    (personality : Option ControllerPersonality) (rng : Rng) : Emit :=
  let message := format_callsign_nato callsign ++ ", descend and maintain " ++
    toString altitude ++ " feet."
  let message := match personality with
    | some p => p.modify_phrase message rng
    | none => message
  (message, ATCPosition.CENTER)

/-- `ATCPhraseology.expect_star`. -/
def expect_star (callsign star runway : String)
    (personality : Option ControllerPersonality) (rng : Rng) : Emit :=
  let message := format_callsign_nato callsign ++ ", expect " ++ star ++
    " arrival, runway " ++ convert_to_nato runway ++ "."
  let message := match personality with
    | some p => p.modify_phrase message rng
    | none => message
  (message, ATCPosition.CENTER)

/-- `ATCPhraseology.approach_clearance`. -/
def approach_clearance (callsign runway : String)
    (personality : Option ControllerPersonality) (rng : Rng) : Emit :=
  let message := format_callsign_nato callsign ++ ", cleared ILS approach runway " ++
    convert_to_nato runway ++ "."
  let message := match personality with
    | some p => p.modify_phrase message rng
    | none => message
  (message, ATCPosition.APPROACH)

/-- `ATCPhraseology.contact_tower`. -/
def contact_tower (callsign freq : String)
    (personality : Option ControllerPersonality) (rng : Rng) : Emit :=
  let message := format_callsign_nato callsign ++ ", contact tower " ++ freq ++ "."
  let message := match personality with
    | some p => p.modify_phrase message rng
    | none => message
  (message, ATCPosition.APPROACH)

/-- `ATCPhraseology.landing_clearance`. -/
def landing_clearance (callsign runway : String)
    (personality : Option ControllerPersonality) (rng : Rng) : Emit :=
  let message := format_callsign_nato callsign ++ ", runway " ++
    convert_to_nato runway ++ ", wind calm, cleared to land."
  let message := match personality with
    | some p => p.modify_phrase message rng
    | none => message
  (message, ATCPosition.TOWER)

/-- `ATCPhraseology.exit_runway`. -/
def exit_runway (callsign : String)
    (personality : Option ControllerPersonality) (rng : Rng) : Emit :=
  let message := format_callsign_nato callsign ++
    ", exit next taxiway, contact ground point niner."
  let message := match personality with
    | some p => p.modify_phrase message rng
    | none => message
  (message, ATCPosition.TOWER)

/-- `ATCPhraseology.taxi_to_gate`. -/
def taxi_to_gate (callsign : String)
    (personality : Option ControllerPersonality) (rng : Rng) : Emit :=
  let message := format_callsign_nato callsign ++ ", taxi to gate via taxiway Bravo."
  let message := match personality with
    | some p => p.modify_phrase message rng
    | none => message
  (message, ATCPosition.GROUND)

/-- The `self.frequencies` dictionary built in `ATCController.__init__`
(one independently generated frequency string per position type). -/
structure FreqDict where
  clearance : String
  ground : String
  tower : String
  departure : String
  approach : String
  center : String
  deriving DecidableEq, Repr

/-- The mutable state of an `ATCController` together with the immutable
values fixed at construction (`flight_plan`, `frequencies`, `dest_lat`,
`dest_lon`).  The TTS manager and the GUI callback are I/O sinks: `speak`
is modelled by returning the list of emitted `(message, position)` pairs in
emission order. -/
structure ControllerState where
  flight_plan : FlightPlan
  phase : ATCPhase
  phase_announced : Bool
  cruise_check_done : Bool
  tod_announced : Bool
  descent_step : ℕ
  freq : FreqState
  airspace : AirspaceClass
  current_personality : ControllerPersonality
  frequencies : FreqDict
  dest_lat : ℚ
  dest_lon : ℚ
  deriving DecidableEq, Repr

/-- `ATCController.request_clearance` (manual command).  Commands draw from
the shared random stream only through `modify_phrase`; `rng k` is the draw
record for the k-th phraseology call of this command. -/
def request_clearance (rng : ℕ → Rng) (cst : ControllerState) : ControllerState × List Emit :=
  if cst.phase = ATCPhase.COLD_AND_DARK then
    let personality := CONTROLLER_PERSONALITIES .CLEARANCE_DELIVERY
    let e := clearance_delivery cst.flight_plan cst.frequencies.departure (some personality) (rng 0)
    ({ cst with phase := .CLEARANCE_DELIVERY, phase_announced := true }, [e])
  else (cst, [])

/-- `ATCController.request_pushback`: precondition
`phase in [CLEARANCE_DELIVERY, COLD_AND_DARK]`. -/
def request_pushback (rng : ℕ → Rng) (cst : ControllerState) : ControllerState × List Emit :=
  if cst.phase = ATCPhase.CLEARANCE_DELIVERY ∨ cst.phase = ATCPhase.COLD_AND_DARK then
    let personality := CONTROLLER_PERSONALITIES .GROUND
    let e := pushback_clearance cst.flight_plan.callsign (some personality) (rng 0)
    ({ cst with phase := .PUSHBACK_APPROVED, phase_announced := true }, [e])
  else (cst, [])

/-- `ATCController.request_taxi`: precondition
`phase in [PUSHBACK_APPROVED, CLEARANCE_DELIVERY]`. -/
def request_taxi (rng : ℕ → Rng) (cst : ControllerState) : ControllerState × List Emit :=
  if cst.phase = ATCPhase.PUSHBACK_APPROVED ∨ cst.phase = ATCPhase.CLEARANCE_DELIVERY then
    let personality := CONTROLLER_PERSONALITIES .GROUND
    let e := taxi_out cst.flight_plan.callsign cst.flight_plan.departure_runway
      (some personality) (rng 0)
    ({ cst with phase := .TAXI_OUT, phase_announced := true }, [e])
  else (cst, [])

/-- `ATCController.request_takeoff`: precondition
`phase in [TAXI_OUT, LINEUP_CLEARANCE]`; emits the line-up and then (after a
`time.sleep(3)` pacing delay, not modelled) the takeoff clearance. -/
def request_takeoff (rng : ℕ → Rng) (cst : ControllerState) : ControllerState × List Emit :=
  if cst.phase = ATCPhase.TAXI_OUT ∨ cst.phase = ATCPhase.LINEUP_CLEARANCE then
    let personality := CONTROLLER_PERSONALITIES .TOWER
    let e1 := lineup_clearance cst.flight_plan.callsign cst.flight_plan.departure_runway
      (some personality) (rng 0)
    let e2 := takeoff_clearance cst.flight_plan.callsign cst.flight_plan.departure_runway
      (some personality) (rng 1)
    ({ cst with phase := .TAKEOFF_CLEARANCE, phase_announced := true }, [e1, e2])
  else (cst, [])

/-- `ATCController.request_climb`: precondition `phase in [DEPARTURE, CLIMB]`. -/
def request_climb (rng : ℕ → Rng) (cst : ControllerState) : ControllerState × List Emit :=
  if cst.phase = ATCPhase.DEPARTURE ∨ cst.phase = ATCPhase.CLIMB then
    let personality := CONTROLLER_PERSONALITIES .DEPARTURE
    let e := climb_clearance cst.flight_plan.callsign cst.flight_plan.cruise_altitude_fl
      (some personality) (rng 0)
    ({ cst with phase := .CLIMB, phase_announced := true }, [e])
  else (cst, [])

/-- `ATCController.request_cruise_altitude_change`: precondition
`phase == CRUISE`; emits but changes no state.  (`new_alt // 100` is
formatted with `:03d`; cruise altitudes are nonnegative, where the
`pad3`-of-`toNat` rendering agrees with Python.) -/
def request_cruise_altitude_change (rng : ℕ → Rng) (cst : ControllerState) :
    ControllerState × List Emit :=
  if cst.phase = ATCPhase.CRUISE then
    let new_alt := cst.flight_plan.cruise_altitude + 2000
    let personality := CONTROLLER_PERSONALITIES .CENTER
    let e := climb_clearance cst.flight_plan.callsign (pad3 ((new_alt / 100).toNat))
      (some personality) (rng 0)
    (cst, [e])
  else (cst, [])

/-- `ATCController.request_descent`: precondition
`phase in [CRUISE, TOD_ADVISORY]`; sets `descent_step = 1`. -/
def request_descent (rng : ℕ → Rng) (cst : ControllerState) : ControllerState × List Emit :=
  if cst.phase = ATCPhase.CRUISE ∨ cst.phase = ATCPhase.TOD_ADVISORY then
    let personality := CONTROLLER_PERSONALITIES .CENTER
    let e := descent_clearance cst.flight_plan.callsign 28000 (some personality) (rng 0)
    ({ cst with phase := .DESCENT, descent_step := 1, phase_announced := true }, [e])
  else (cst, [])

/-- `ATCController.request_landing`: precondition
`phase in [APPROACH, FINAL_APPROACH]`. -/
def request_landing (rng : ℕ → Rng) (cst : ControllerState) : ControllerState × List Emit :=
  if cst.phase = ATCPhase.APPROACH ∨ cst.phase = ATCPhase.FINAL_APPROACH then
    let personality := CONTROLLER_PERSONALITIES .TOWER
    let e := landing_clearance cst.flight_plan.callsign cst.flight_plan.arrival_runway
      (some personality) (rng 0)
    ({ cst with phase := .LANDING_CLEARANCE, phase_announced := true }, [e])
  else (cst, [])

/-- `ATCController.request_taxi_to_gate`: precondition
`phase in [LANDED, TAXI_IN]`. -/
def request_taxi_to_gate (rng : ℕ → Rng) (cst : ControllerState) : ControllerState × List Emit :=
  if cst.phase = ATCPhase.LANDED ∨ cst.phase = ATCPhase.TAXI_IN then
    let personality := CONTROLLER_PERSONALITIES .GROUND
    let e := taxi_to_gate cst.flight_plan.callsign (some personality) (rng 0)
    ({ cst with phase := .PARKING, phase_announced := true }, [e])
  else (cst, [])

/-- `ATCController.force_phase`: re-issues the named manual command (which
remains subject to its own precondition); unknown names are no-ops. -/
def force_phase (name : String) (rng : ℕ → Rng) (cst : ControllerState) :
    ControllerState × List Emit :=
  if name = "clearance" then request_clearance rng cst
  else if name = "pushback" then request_pushback rng cst
  else if name = "taxi" then request_taxi rng cst
  else if name = "takeoff" then request_takeoff rng cst
  else if name = "climb" then request_climb rng cst
  else if name = "descent" then request_descent rng cst
  else if name = "landing" then request_landing rng cst
  else if name = "taxi_to_gate" then request_taxi_to_gate rng cst
  else (cst, [])

/-- The airspace-transition block at the top of `ATCController.update`:
reclassify, store, and announce (always from the CENTER position) when the
class changed and the table produced a nonempty message (it always does). -/
def airspace_step (d : DistOracle) (cst : ControllerState) (aircraft : AircraftState) :
    ControllerState × List Emit :=
  let r := check_airspace d cst.airspace aircraft
  if r.2 then
    let entry_msg := get_entry_message r.1 cst.flight_plan.callsign
    ({ cst with airspace := r.1 },
     if entry_msg ≠ "" then [(entry_msg, ATCPosition.CENTER)] else [])
  else ({ cst with airspace := r.1 }, [])

/-- The frequency-handoff block of `ATCController.update`: when
`check_handoff_needed` surfaces a target, announce the handoff on the
current position (overriding the template's placeholder), switch the active
frequency/sector/personality (a `time.sleep(2)` pacing delay is not
modelled), then emit the check-in acknowledgment on the new position. -/
def handoff_step (d : DistOracle) (rng : ℕ → Rng) (cst : ControllerState)
    (aircraft : AircraftState) : ControllerState × List Emit :=
  match check_handoff_needed d cst.freq aircraft with
  | none => (cst, [])
  | some next_sector =>
    if some next_sector ≠ cst.freq.active_sector then
      let e1 := frequency_handoff cst.flight_plan.callsign next_sector.name
        next_sector.frequency (some cst.current_personality) (rng 0)
      let current_pos := match cst.freq.active_sector with
        | some s => s.position
        | none => ATCPosition.CENTER
      let freq2 := (set_active_frequency cst.freq next_sector.frequency).1
      let e2 := check_in_response cst.flight_plan.callsign
        cst.flight_plan.cruise_altitude_fl (some next_sector.personality) (rng 1)
      ({ cst with freq := freq2, current_personality := next_sector.personality },
       [(e1.1, current_pos), (e2.1, next_sector.position)])
    else (cst, [])

/-- The phase auto-advance chain of `ATCController.update` (the original
`if/elif` dispatch on the current phase; phases without a branch fall
through unchanged). -/
def auto_step (rng : ℕ → Rng) (cst : ControllerState) (aircraft : AircraftState)
    (distance_to_dest tod_distance : ℚ) : ControllerState × List Emit :=
  match cst.phase with
  | .TAKEOFF_CLEARANCE =>
    if aircraft.altitude_agl > TAKEOFF_ALTITUDE then
      if cst.phase_announced = false then
        let e := contact_departure cst.flight_plan.callsign cst.frequencies.departure
          none (rng 2)
        ({ cst with phase := .DEPARTURE, phase_announced := true }, [e])
      else (cst, [])
    else (cst, [])
  | .DEPARTURE =>
    if aircraft.altitude_agl > INITIAL_CLIMB_ALTITUDE then
      if cst.phase_announced = false then
        let e := climb_clearance cst.flight_plan.callsign cst.flight_plan.cruise_altitude_fl
          (some cst.current_personality) (rng 2)
        ({ cst with phase := .CLIMB, phase_announced := true }, [e])
      else (cst, [])
    else (cst, [])
  | .CLIMB =>
    if aircraft.altitude_msl > (cst.flight_plan.cruise_altitude : ℚ) - 1000 then
      ({ cst with phase := .CRUISE, phase_announced := false }, [])
    else (cst, [])
  | .CRUISE =>
    -- cruise check (a time.sleep(5) pacing delay precedes the message)
    let r1 :=
      if cst.cruise_check_done = false then
        let e := cruise_check cst.flight_plan.callsign cst.flight_plan.cruise_altitude_fl
          (some cst.current_personality) (rng 2)
        ({ cst with cruise_check_done := true }, [e])
      else (cst, [])
    let cst1 := r1.1
    if distance_to_dest ≤ tod_distance ∧ cst1.tod_announced = false then
      let e := top_of_descent cst1.flight_plan.callsign (pyInt distance_to_dest)
        (some cst1.current_personality) (rng 3)
      ({ cst1 with tod_announced := true, phase := .TOD_ADVISORY, phase_announced := false },
       r1.2 ++ [e])
    else (cst1, r1.2)
  | .DESCENT =>
    if cst.descent_step = 1 ∧ aircraft.altitude_msl < 29000 then
      let e := descent_clearance cst.flight_plan.callsign 18000
        (some cst.current_personality) (rng 2)
      ({ cst with descent_step := 2 }, [e])
    else if cst.descent_step = 2 ∧ aircraft.altitude_msl < 19000 then
      let e := expect_star cst.flight_plan.callsign cst.flight_plan.star
        cst.flight_plan.arrival_runway (some cst.current_personality) (rng 2)
      ({ cst with descent_step := 3 }, [e])
    else if cst.descent_step = 3 ∧ aircraft.altitude_msl < APPROACH_ALTITUDE then
      let e := approach_clearance cst.flight_plan.callsign cst.flight_plan.arrival_runway
        (some cst.current_personality) (rng 2)
      ({ cst with phase := .APPROACH, phase_announced := true }, [e])
    else (cst, [])
  | .APPROACH =>
    if aircraft.altitude_msl < FINAL_APPROACH_ALTITUDE then
      if cst.phase_announced = false then
        let e := contact_tower cst.flight_plan.callsign cst.frequencies.tower
          (some cst.current_personality) (rng 2)
        ({ cst with phase := .FINAL_APPROACH, phase_announced := true }, [e])
      else (cst, [])
    else (cst, [])
  | .LANDING_CLEARANCE =>
    if aircraft.on_ground = true ∧ aircraft.groundspeed < LANDING_SPEED then
      let e := exit_runway cst.flight_plan.callsign (some cst.current_personality) (rng 2)
      ({ cst with phase := .LANDED, phase_announced := true }, [e])
    else (cst, [])
  | _ => (cst, [])

/-- `ATCController.update`: airspace transitions, then frequency handoffs,
then the phase auto-advance chain, with `distance_to_dest` and the
top-of-descent distance computed up front.  Emissions are returned in
emission order. -/
def ATCController.update (d : DistOracle) (rng : ℕ → Rng) (cst : ControllerState)
    (aircraft : AircraftState) : ControllerState × List Emit :=
  let distance_to_dest := d aircraft (cst.dest_lat, cst.dest_lon)
  let tod_distance := cst.flight_plan.get_tod_distance
  let s1 := airspace_step d cst aircraft
  let s2 := handoff_step d rng s1.1 aircraft
  let s3 := auto_step rng s2.1 aircraft distance_to_dest tod_distance
  (s3.1, s1.2 ++ s2.2 ++ s3.2)

/-- `SimBriefImporter.create_demo_flight_plan`; its squawk field is the
result of a `generate_squawk_code` call, passed here explicitly. -/
def create_demo_flight_plan (squawk : String) : FlightPlan :=
  { callsign := "SPEEDBIRD123", departure_icao := "EGLL", departure_runway := "27R",
    arrival_icao := "EDDF", arrival_runway := "25C", sid := "BUZAD2G", star := "TEKTU1A",
    cruise_altitude := 37000, cruise_altitude_fl := "370", route := "BUZAD L9 KONAN",
    distance_nm := 420.0, squawk := squawk }

/-- Demo flight plan with a fixed squawk draw, used by concrete witnesses. -/
def demoFlightPlan : FlightPlan := create_demo_flight_plan "4601"

/-- Concrete `randint` draws for the eight `generate_frequency` calls of
`_init_sectors`, chosen so all eight frequencies are distinct. -/
def witnessDraws : Fin 8 → ℕ
  | 0 => 700
  | 1 => 600
  | 2 => 100
  | 3 => 125
  | 4 => 150
  | 5 => 175
  | 6 => 200
  | 7 => 625

/-- A fixed random source for witnesses. -/
def rng0 : ℕ → Rng := fun _ => ⟨false, 0, false⟩

/-- A concrete controller state used by witnesses (Cold & Dark, fresh
flags, sector list built by `_init_sectors` on the demo plan, no active
sector). -/
def witnessState : ControllerState :=
  { flight_plan := demoFlightPlan
    phase := .COLD_AND_DARK
    phase_announced := false
    cruise_check_done := false
    tod_announced := false
    descent_step := 0
    freq := ⟨none, none, init_sectors demoFlightPlan witnessDraws⟩
    airspace := .CLASS_G
    current_personality := CONTROLLER_PERSONALITIES .CLEARANCE_DELIVERY
    frequencies := ⟨"121.700", "121.600", "118.100", "119.125", "120.175", "132.150"⟩
    dest_lat := 50.0379
    dest_lon := 8.5622 }

/-- A personality satisfying the claim's hypothesis `friendliness > 0.7`
(no predefined personality exceeds 0.7; the traits other than friendliness
are chosen below the thresholds of the other two rules, which the handoff
message would not trigger anyway). -/
def friendlyTestPersonality : ControllerPersonality :=
  ⟨"Friendly Test", 0.7, 0.8, 0.5, 0.5, 1.0⟩

/-- Aircraft above FL180 (position at Heathrow is irrelevant). -/
def aircraftA : AircraftState := ⟨51.47, -0.4543, 20000, 19000, 450, 90, false, 0⟩
/-- Aircraft at the Heathrow volume center at 5000 ft (Class B band). -/
def aircraftB : AircraftState := ⟨51.47, -0.4543, 5000, 4900, 250, 90, false, 0⟩
/-- Aircraft below the Class E floor and far from every airport volume. -/
def aircraftG : AircraftState := ⟨0, 100, 500, 400, 250, 90, false, 0⟩

/-- A departure-control sector for the C1 witness. -/
def departureSector : ATCSector :=
  ⟨"Alpha Departure", .DEPARTURE, "119.125", 0, 0, 40, 0, 60000,
    CONTROLLER_PERSONALITIES .DEPARTURE⟩

/-- A Center sector for the C1 witness, overlapping the departure sector. -/
def centerSector : ATCSector :=
  ⟨"Bravo Center", .CENTER, "132.150", 0, 50, 200, 0, 60000,
    CONTROLLER_PERSONALITIES .CENTER⟩

/-- The sector list the witness controller owns. -/
def c1Sectors : List ATCSector := [departureSector, centerSector]

/-- The frequency-manager state of the C1 witness controller. -/
def c1Freq : FreqState := ⟨some "119.125", some departureSector, c1Sectors⟩

/-- Controller state about to hand off from departure control to Center. -/
def c1State : ControllerState :=
  { witnessState with
    phase := ATCPhase.CLIMB
    airspace := AirspaceClass.CLASS_A
    freq := c1Freq }

/-- Aircraft outside the departure sector's 40 nm radius but inside the
Center sector. -/
def a1 : AircraftState := ⟨0, 45, 30000, 29000, 450, 90, false, 0⟩

/-- The aircraft and flags of the C3 counterexample: climbing back through
the cruise-entry condition with both cruise flags already set. -/
def a3 : AircraftState := ⟨0, 45, 36500, 35000, 450, 90, false, 0⟩

/-- Controller state in Climb with `cruise_check_done` and `tod_announced`
already set (and no active sector, so no handoff interferes). -/
def c3State : ControllerState :=
  { witnessState with
    phase := ATCPhase.CLIMB
    cruise_check_done := true
    tod_announced := true
    airspace := AirspaceClass.CLASS_A
    freq := ⟨none, none, []⟩ }

/-- Controller state in Cruise with fresh flags. -/
def cruiseState : ControllerState := { witnessState with phase := ATCPhase.CRUISE }

/-- Controller state in Cruise with both cruise flags already set. -/
def cruiseDoneState : ControllerState :=
  { witnessState with
    phase := ATCPhase.CRUISE
    cruise_check_done := true
    tod_announced := true }

/-- C7: for every flight plan the top-of-descent distance equals
`(cruise_altitude − 3000)/1000 × 3 + 10` nautical miles, and a cruise
altitude of 37000 ft yields 112 nm. -/
theorem C7_tod_distance (fp : FlightPlan) :
    fp.get_tod_distance = ((fp.cruise_altitude : ℚ) - 3000) / 1000 * 3 + 10 ∧
    (fp.cruise_altitude = 37000 → fp.get_tod_distance = 112) := by
  refine ⟨rfl, fun h => ?_⟩
  rw [FlightPlan.get_tod_distance, h]
  norm_num

/-- Witness for C7 at the demo flight plan (cruise altitude 37000 ft). -/
theorem C7_tod_distance_witness : demoFlightPlan.get_tod_distance = 112 :=
  (C7_tod_distance demoFlightPlan).2 rfl

/-- The characters produced by `str(random.randint(0, 7))` lie between
`0` and `7`. -/
theorem pyStrDigit_bounds (d : Fin 8) : ('0' ≤ pyStrDigit d ∧ pyStrDigit d ≤ '7') := by
  fin_cases d <;> exact ⟨by decide, by decide⟩

/-- C8: every squawk code the generator returns (on any random outcome on
which the retry loop terminates) is a string of exactly four octal digits
and is never one of the four reserved codes. -/
theorem C8_squawk_valid (ds : List (Fin 8)) (code : String)
    (h : generate_squawk_code ds = some code) :
    code.length = 4 ∧ (∀ c ∈ code.data, '0' ≤ c ∧ c ≤ '7') ∧ code ∉ reserved_codes := by
  induction ds using generate_squawk_code.induct with
  | case1 d1 d2 d3 d4 rest c hres ih =>
    rw [generate_squawk_code, if_pos hres] at h
    exact ih h
  | case2 d1 d2 d3 d4 rest c hres =>
    rw [generate_squawk_code, if_neg hres] at h
    obtain rfl := Option.some.inj h
    refine ⟨rfl, ?_, hres⟩
    intro ch hc
    simp only [List.mem_cons, List.not_mem_nil, or_false] at hc
    rcases hc with h1 | h1 | h1 | h1 <;> exact h1 ▸ pyStrDigit_bounds _
  | case3 l hne =>
    rw [generate_squawk_code] at h
    · cases h
    · exact hne

/-- Witness for C8: a concrete draw stream whose first attempt is the
reserved `7500`, forcing one retry. -/
theorem C8_squawk_valid_witness :
    ("7506".length = 4 ∧ (∀ c ∈ "7506".data, '0' ≤ c ∧ c ≤ '7') ∧
      "7506" ∉ reserved_codes) :=
  C8_squawk_valid [7, 5, 0, 0, 7, 5, 0, 6] "7506" (by decide)

/-- A 25 kHz-aligned decimal in the generated range renders as exactly
three digits. -/
theorem repr_len_three (n : ℕ) (h1 : 100 ≤ n) (h2 : n ≤ 900) (h3 : n % 25 = 0) :
    (Nat.repr n).length = 3 := by
  obtain ⟨k, rfl⟩ : ∃ k, n = 25 * k := ⟨n / 25, by omega⟩
  have hk1 : 4 ≤ k := by omega
  have hk2 : k ≤ 36 := by omega
  interval_cases k <;> decide

/-- C9: for every position type (including the dictionary default) and
every in-range `randint` draw, the generated frequency's decimal part is a
multiple of 25, stays inside the type's documented range after rounding
down to the 25 kHz grid, renders as exactly three digits, and the integer
part is the type's fixed base (118 for tower, 132 for center). -/
theorem C9_frequency_grid (freq_type : String) (r : ℕ)
    (hlo : (freq_ranges freq_type).2.1 ≤ r) (hhi : r ≤ (freq_ranges freq_type).2.2) :
    (r / 25 * 25) % 25 = 0 ∧
    (freq_ranges freq_type).2.1 ≤ r / 25 * 25 ∧
    r / 25 * 25 ≤ (freq_ranges freq_type).2.2 ∧
    (freq_type = "tower" → (freq_ranges freq_type).1 = 118) ∧
    (freq_type = "center" → (freq_ranges freq_type).1 = 132) ∧
    generate_frequency freq_type r =
      Nat.repr (freq_ranges freq_type).1 ++ "." ++ Nat.repr (r / 25 * 25) ∧
    (Nat.repr (r / 25 * 25)).length = 3 := by
  have hmod : (r / 25 * 25) % 25 = 0 := Nat.mul_mod_left _ 25
  have hrange : (freq_ranges freq_type).2.1 ≤ r / 25 * 25 ∧
      r / 25 * 25 ≤ (freq_ranges freq_type).2.2 ∧
      100 ≤ r / 25 * 25 ∧ r / 25 * 25 ≤ 900 := by
    rw [freq_ranges] at hlo hhi ⊢
    split_ifs at hlo hhi ⊢ <;> dsimp only at hlo hhi ⊢ <;> omega
  have hlen : (Nat.repr (r / 25 * 25)).length = 3 :=
    repr_len_three _ hrange.2.2.1 hrange.2.2.2 hmod
  have hpad : pad3 (r / 25 * 25) = Nat.repr (r / 25 * 25) := by
    rw [pad3, if_neg (by omega), if_neg (by omega)]
  refine ⟨hmod, hrange.1, hrange.2.1, ?_, ?_, ?_, hlen⟩
  · intro ht; rw [ht]; rfl
  · intro ht; rw [ht]; rfl
  · rw [← hpad]
    rfl

/-- Witness for C9: the tower range with draw 347 gives `118.325`. -/
theorem C9_frequency_grid_witness :
    generate_frequency "tower" 347 =
      Nat.repr (freq_ranges "tower").1 ++ "." ++ Nat.repr (347 / 25 * 25) ∧
    (347 / 25 * 25) % 25 = 0 ∧
    (freq_ranges "tower").1 = 118 := by
  have h := C9_frequency_grid "tower" 347 (by decide) (by decide)
  exact ⟨h.2.2.2.2.2.1, h.1, h.2.2.2.1 rfl⟩

/-- C6: issuing `request_takeoff` while Cold & Dark is a silent no-op (state
unchanged, nothing emitted), and in general the command changes state or
emits messages only from Taxi Out or Line Up. -/
theorem C6_request_takeoff_guard (rng : ℕ → Rng) (cst : ControllerState) :
    (cst.phase = ATCPhase.COLD_AND_DARK → request_takeoff rng cst = (cst, [])) ∧
    (request_takeoff rng cst ≠ (cst, []) →
      cst.phase = ATCPhase.TAXI_OUT ∨ cst.phase = ATCPhase.LINEUP_CLEARANCE) := by
  constructor
  · intro h
    rw [request_takeoff, if_neg]
    rw [h]
    rintro (h1 | h1) <;> cases h1
  · intro h
    by_contra hc
    exact h (by rw [request_takeoff, if_neg hc])

/-- Witness for C6 at the concrete Cold & Dark state. -/
theorem C6_request_takeoff_guard_witness :
    request_takeoff rng0 witnessState = (witnessState, []) :=
  (C6_request_takeoff_guard rng0 witnessState).1 rfl

/-- C10: `request_pushback`'s precondition accepts Cold & Dark as well as
Clearance Delivery; from either phase it emits exactly the pushback message
(Ground personality) and moves the phase directly to Pushback Approved —
in particular from Cold & Dark, skipping Clearance Delivery. -/
theorem C10_pushback_from_cold (rng : ℕ → Rng) (cst : ControllerState)
    (h : cst.phase = ATCPhase.COLD_AND_DARK ∨ cst.phase = ATCPhase.CLEARANCE_DELIVERY) :
    request_pushback rng cst =
      ({ cst with phase := .PUSHBACK_APPROVED, phase_announced := true },
       [pushback_clearance cst.flight_plan.callsign
          (some (CONTROLLER_PERSONALITIES .GROUND)) (rng 0)]) := by
  rw [request_pushback, if_pos]
  exact h.symm.imp id id |>.symm.elim Or.inr Or.inl

/-- Witness for C10 at the concrete Cold & Dark state. -/
theorem C10_pushback_from_cold_witness :
    request_pushback rng0 witnessState =
      ({ witnessState with phase := .PUSHBACK_APPROVED, phase_announced := true },
       [pushback_clearance witnessState.flight_plan.callsign
          (some (CONTROLLER_PERSONALITIES .GROUND)) (rng0 0)]) :=
  C10_pushback_from_cold rng0 witnessState (Or.inl rfl)

/-- C4 (refuting evaluation): `modify_phrase` detects the closing pleasantry
case-insensitively (`'good day' in phrase.lower()`) but replaces it
case-sensitively (`phrase.replace('good day', …)`); the handoff template
ends in the capitalised `Good day.`, so for every random outcome —
including the probability-0.3 branch with each of the three alternate
closings — the message is returned unchanged. -/
theorem C4_handoff_closing_never_replaced (rng : Rng) :
    friendlyTestPersonality.modify_phrase
        (frequency_handoff_message "SPEEDBIRD123" "Center" "132.150") rng =
      frequency_handoff_message "SPEEDBIRD123" "Center" "132.150" := by
  obtain ⟨lt03, choice3, lt04⟩ := rng
  fin_cases choice3 <;> cases lt03 <;> cases lt04 <;> with_unfolding_all decide

/-- `find?` returns exactly the first element satisfying the predicate. -/
theorem find?_first {α : Type} (p : α → Bool) (l : List α) (i : ℕ) (hi : i < l.length)
    (hp : p (l.get ⟨i, hi⟩) = true)
    (hmin : ∀ j (hj : j < i), p (l.get ⟨j, hj.trans hi⟩) = false) :
    l.find? p = some (l.get ⟨i, hi⟩) := by
  induction l generalizing i with
  | nil => exact absurd hi (by simp)
  | cons a t ih =>
    cases i with
    | zero => exact List.find?_cons_of_pos _ hp
    | succ n =>
      have ha : p a = false := hmin 0 (Nat.succ_pos n)
      rw [List.find?_cons_of_neg _ (by simp [ha])]
      exact ih n (Nat.lt_of_succ_lt_succ hi) hp
        (fun j hj => hmin (j + 1) (Nat.succ_lt_succ hj))

/-- C5: classification is a pure function of position, altitude and the
fixed volume list: altitude MSL ≥ 18000 gives Class A regardless of
position; below that, the first volume (construction order) whose band and
radius contain the aircraft decides; with no match the result is Class G. -/
theorem C5_airspace_classification (d : DistOracle) (aircraft : AircraftState) :
    (18000 ≤ aircraft.altitude_msl → monitor_determine_airspace d aircraft = .CLASS_A) ∧
    (aircraft.altitude_msl < 18000 →
      (∀ (i : ℕ) (hi : i < default_airspace_volumes.length),
        is_in_volume d aircraft (default_airspace_volumes.get ⟨i, hi⟩) = true →
        (∀ (j : ℕ) (hj : j < i),
          is_in_volume d aircraft (default_airspace_volumes.get ⟨j, hj.trans hi⟩) = false) →
        monitor_determine_airspace d aircraft =
          (default_airspace_volumes.get ⟨i, hi⟩).classification) ∧
      ((∀ v ∈ default_airspace_volumes, is_in_volume d aircraft v = false) →
        monitor_determine_airspace d aircraft = .CLASS_G)) := by
  refine ⟨fun h => ?_, fun hlt => ⟨fun i hi hp hmin => ?_, fun hnone => ?_⟩⟩
  · rw [monitor_determine_airspace, determine_airspace, if_pos h]
  · rw [monitor_determine_airspace, determine_airspace, if_neg (not_le.mpr hlt),
      find?_first _ _ i hi hp hmin]
  · rw [monitor_determine_airspace, determine_airspace, if_neg (not_le.mpr hlt),
      List.find?_eq_none.mpr (fun v hv => by simp [hnone v hv])]

/-- Witness for C5: one concrete aircraft per branch of the rule. -/
theorem C5_airspace_classification_witness :
    monitor_determine_airspace flatDist aircraftA = .CLASS_A ∧
    monitor_determine_airspace flatDist aircraftB = .CLASS_B ∧
    monitor_determine_airspace flatDist aircraftG = .CLASS_G := by
  refine ⟨(C5_airspace_classification flatDist aircraftA).1 (by with_unfolding_all decide),
    ?_, ?_⟩
  · have h := ((C5_airspace_classification flatDist aircraftB).2
      (by with_unfolding_all decide)).1 1 (by with_unfolding_all decide)
      (by with_unfolding_all decide)
      (fun j hj => by
        have hj0 : j = 0 := by omega
        subst hj0
        exact (by with_unfolding_all decide :
          is_in_volume flatDist aircraftB
            (default_airspace_volumes.get ⟨0, Nat.zero_lt_succ 6⟩) = false))
    exact h.trans rfl
  · exact ((C5_airspace_classification flatDist aircraftG).2
      (by with_unfolding_all decide)).2 (by with_unfolding_all decide)

/-- The airspace block only rewrites the stored airspace class. -/
theorem airspace_step_state (d : DistOracle) (cst : ControllerState) (a : AircraftState) :
    (airspace_step d cst a).1 = { cst with airspace := (check_airspace d cst.airspace a).1 } := by
  rw [airspace_step]
  split <;> rfl

/-- `set_active_frequency` never changes the sector list. -/
theorem set_active_frequency_sectors (fm : FreqState) (f : String) :
    (set_active_frequency fm f).1.sectors = fm.sectors := by
  rw [set_active_frequency]
  split <;> rfl

/-- The handoff block leaves the phase, the per-phase flags and the sector
list unchanged (it only rewrites the active frequency/sector and the
current personality). -/
theorem handoff_step_frame (d : DistOracle) (rng : ℕ → Rng) (cst : ControllerState)
    (a : AircraftState) :
    (handoff_step d rng cst a).1.phase = cst.phase ∧
    (handoff_step d rng cst a).1.phase_announced = cst.phase_announced ∧
    (handoff_step d rng cst a).1.cruise_check_done = cst.cruise_check_done ∧
    (handoff_step d rng cst a).1.tod_announced = cst.tod_announced ∧
    (handoff_step d rng cst a).1.descent_step = cst.descent_step ∧
    (handoff_step d rng cst a).1.freq.sectors = cst.freq.sectors ∧
    (handoff_step d rng cst a).1.flight_plan = cst.flight_plan := by
  rw [handoff_step]
  split
  · exact ⟨rfl, rfl, rfl, rfl, rfl, rfl, rfl⟩
  · split
    · exact ⟨rfl, rfl, rfl, rfl, rfl, set_active_frequency_sectors _ _, rfl⟩
    · exact ⟨rfl, rfl, rfl, rfl, rfl, rfl, rfl⟩

/-- The auto-advance chain never decreases the phase index. -/
theorem auto_step_phase_mono (rng : ℕ → Rng) (cst : ControllerState) (a : AircraftState)
    (dd td : ℚ) :
    phaseIdx cst.phase ≤ phaseIdx (auto_step rng cst a dd td).1.phase := by
  rcases hp : cst.phase <;>
    simp only [auto_step, hp] <;>
    (try split_ifs) <;>
    simp [phaseIdx, hp]

/-- C2: a single `update` call leaves the phase where it was or moves it to
a strictly later phase in the documented 18-phase order; automatic
transitions never move the phase backwards. -/
theorem C2_update_phase_monotone (d : DistOracle) (rng : ℕ → Rng) (cst : ControllerState)
    (a : AircraftState) :
    phaseIdx cst.phase ≤ phaseIdx ((ATCController.update d rng cst a).1.phase) := by
  have h1 : (airspace_step d cst a).1.phase = cst.phase := by
    rw [airspace_step_state]
  have h2 := (handoff_step_frame d rng (airspace_step d cst a).1 a).1
  have h3 := auto_step_phase_mono rng (handoff_step d rng (airspace_step d cst a).1 a).1 a
    (d a (cst.dest_lat, cst.dest_lon)) cst.flight_plan.get_tod_distance
  rw [h2, h1] at h3
  exact h3

/-- Unfolding of a successful `check_handoff_needed`: there is an active
sector, the aircraft is within the handoff threshold of its boundary, and
the result is the first matching sector, different from the active one. -/
theorem check_handoff_some (d : DistOracle) (fm : FreqState) (a : AircraftState)
    (s : ATCSector) (h : check_handoff_needed d fm a = some s) :
    ∃ act, fm.active_sector = some act ∧
      act.distance_to_boundary d a < handoff_threshold_nm ∧
      find_appropriate_sector d fm a = some s ∧ s ≠ act := by
  rw [check_handoff_needed] at h
  rcases hact : fm.active_sector with _ | act <;> rw [hact] at h <;> dsimp only at h
  · cases h
  · by_cases hb : act.distance_to_boundary d a < handoff_threshold_nm
    · rw [if_pos hb] at h
      rcases hf : find_appropriate_sector d fm a with _ | nxt <;>
        rw [hf] at h <;> dsimp only at h
      · cases h
      · by_cases hne : nxt ≠ act
        · rw [if_pos hne] at h
          obtain rfl := Option.some.inj h
          exact ⟨act, rfl, hb, rfl, hne⟩
        · rw [if_neg hne] at h; cases h
    · rw [if_neg hb] at h; cases h

/-- If the first element satisfying `p` also satisfies `q`, it is the first
element satisfying both. -/
theorem find?_and_of_find? {α : Type} (p q : α → Bool) (l : List α) (s : α)
    (h : l.find? p = some s) (hq : q s = true) :
    l.find? (fun x => p x && q x) = some s := by
  induction l with
  | nil => cases h
  | cons a t ih =>
    by_cases ha : p a
    · rw [List.find?_cons_of_pos _ ha] at h
      obtain rfl := Option.some.inj h
      exact List.find?_cons_of_pos _ (by simp [ha, hq])
    · rw [List.find?_cons_of_neg _ ha] at h
      rw [List.find?_cons_of_neg _ (by simp [ha])]
      exact ih h

/-- The auto-advance chain never touches the frequency manager. -/
theorem auto_step_freq (rng : ℕ → Rng) (cst : ControllerState) (a : AircraftState)
    (dd td : ℚ) : (auto_step rng cst a dd td).1.freq = cst.freq := by
  rcases hp : cst.phase <;> simp only [auto_step, hp] <;> (try split_ifs) <;> rfl

/-- The frequency-manager state `update` leaves behind is the one the
handoff block produced. -/
theorem update_freq (d : DistOracle) (rng : ℕ → Rng) (cst : ControllerState)
    (a : AircraftState) :
    (ATCController.update d rng cst a).1.freq =
      (handoff_step d rng (airspace_step d cst a).1 a).1.freq := by
  rw [ATCController.update]
  exact auto_step_freq _ _ _ _ _

/-- C1: `check_handoff_needed` returns no sector without an active sector;
a returned sector means the aircraft is within 15 nm of the active
sector's boundary and the result is the first sector in construction order
that matches and differs from the active one; and once `update` has
executed the handoff and made the target active, a second call at the same
aircraft state returns no sector. -/
theorem C1_check_handoff (d : DistOracle) (rng : ℕ → Rng) (cst : ControllerState)
    (a : AircraftState) :
    (cst.freq.active_sector = none → check_handoff_needed d cst.freq a = none) ∧
    (∀ s, check_handoff_needed d cst.freq a = some s →
      ∃ act, cst.freq.active_sector = some act ∧
        act.radius_nm - d a (act.center_lat, act.center_lon) < 15 ∧
        s ≠ act ∧
        cst.freq.sectors.find?
          (fun t => t.is_in_sector d a && decide (t ≠ act)) = some s) ∧
    (∀ s, check_handoff_needed d cst.freq a = some s →
      (ATCController.update d rng cst a).1.freq.active_sector = some s →
      check_handoff_needed d (ATCController.update d rng cst a).1.freq a = none) := by
  refine ⟨fun h => ?_, fun s h => ?_, fun s h hact => ?_⟩
  · rw [check_handoff_needed, h]
  · obtain ⟨act, hact, hb, hf, hne⟩ := check_handoff_some d cst.freq a s h
    exact ⟨act, hact, hb, hne, find?_and_of_find? _ _ _ _ hf (by simp [hne])⟩
  · have hsect : (ATCController.update d rng cst a).1.freq.sectors = cst.freq.sectors := by
      rw [update_freq, (handoff_step_frame d rng (airspace_step d cst a).1 a).2.2.2.2.2.1,
        airspace_step_state]
    obtain ⟨act, hact0, hb, hf, hne⟩ := check_handoff_some d cst.freq a s h
    rw [check_handoff_needed, hact]
    dsimp only
    by_cases hb2 : s.distance_to_boundary d a < handoff_threshold_nm
    · rw [if_pos hb2]
      have hf2 : find_appropriate_sector d (ATCController.update d rng cst a).1.freq a
          = some s := by
        rw [find_appropriate_sector, hsect]
        exact hf
      rw [hf2]
      dsimp only
      rw [if_neg (by simp)]
    · rw [if_neg hb2]

/-- Constructive counterpart of `check_handoff_some`. -/
theorem check_handoff_intro (d : DistOracle) (fm : FreqState) (a : AircraftState)
    (act s : ATCSector) (hact : fm.active_sector = some act)
    (hb : act.distance_to_boundary d a < handoff_threshold_nm)
    (hf : find_appropriate_sector d fm a = some s) (hne : s ≠ act) :
    check_handoff_needed d fm a = some s := by
  rw [check_handoff_needed, hact]
  dsimp only
  rw [if_pos hb, hf]
  dsimp only
  rw [if_pos hne]

/-- When a handoff fires, the handoff block installs the frequency found by
`set_active_frequency` on the target's frequency. -/
theorem handoff_step_executes (d : DistOracle) (rng : ℕ → Rng) (cst : ControllerState)
    (a : AircraftState) (next : ATCSector)
    (h : check_handoff_needed d cst.freq a = some next) :
    (handoff_step d rng cst a).1.freq = (set_active_frequency cst.freq next.frequency).1 ∧
    (handoff_step d rng cst a).1.current_personality = next.personality := by
  obtain ⟨act, hact, _, _, hne⟩ := check_handoff_some d cst.freq a next h
  rw [handoff_step, h]
  dsimp only
  rw [hact, if_pos (by simp [hne])]
  exact ⟨rfl, rfl⟩

/-- Witness for C1: no active sector gives no handoff; the concrete
boundary crossing surfaces the Center sector; after `update` executes the
handoff the second check is silent. -/
theorem C1_check_handoff_witness :
    check_handoff_needed flatDist ⟨none, none, c1Sectors⟩ a1 = none ∧
    (∃ act, c1State.freq.active_sector = some act ∧
      act.radius_nm - flatDist a1 (act.center_lat, act.center_lon) < 15 ∧
      centerSector ≠ act ∧
      c1State.freq.sectors.find?
        (fun t => t.is_in_sector flatDist a1 && decide (t ≠ act)) = some centerSector) ∧
    check_handoff_needed flatDist
      (ATCController.update flatDist rng0 c1State a1).1.freq a1 = none := by
  have h1 : departureSector.is_in_sector flatDist a1 = false := by
    with_unfolding_all decide
  have h2 : centerSector.is_in_sector flatDist a1 = true := by
    with_unfolding_all decide
  have hb : departureSector.distance_to_boundary flatDist a1 < handoff_threshold_nm := by
    with_unfolding_all decide
  have hne : centerSector ≠ departureSector := by decide
  have hfind : find_appropriate_sector flatDist c1Freq a1 = some centerSector := by
    rw [find_appropriate_sector]
    show List.find? _ [departureSector, centerSector] = some centerSector
    rw [List.find?_cons_of_neg (p := fun (sec : ATCSector) => sec.is_in_sector flatDist a1) _ (by simp [h1]),
      List.find?_cons_of_pos (p := fun (sec : ATCSector) => sec.is_in_sector flatDist a1) _ h2]
  have hsome : check_handoff_needed flatDist c1Freq a1 = some centerSector :=
    check_handoff_intro flatDist c1Freq a1 departureSector centerSector rfl hb hfind hne
  have hXfreq : (airspace_step flatDist c1State a1).1.freq = c1Freq := by
    rw [airspace_step_state]
    rfl
  have hsomeX : check_handoff_needed flatDist (airspace_step flatDist c1State a1).1.freq a1
      = some centerSector := by
    rw [hXfreq]; exact hsome
  have hh := handoff_step_executes flatDist rng0 (airspace_step flatDist c1State a1).1 a1
    centerSector hsomeX
  have hupdfreq : (ATCController.update flatDist rng0 c1State a1).1.freq
      = (set_active_frequency c1Freq centerSector.frequency).1 := by
    rw [update_freq, hh.1, hXfreq]
  have hset : (set_active_frequency c1Freq centerSector.frequency).1.active_sector
      = some centerSector := by
    rw [set_active_frequency]
    rw [show c1Freq.sectors.find? (fun sec => sec.frequency = centerSector.frequency)
        = some centerSector from by
      show List.find? _ [departureSector, centerSector] = some centerSector
      rw [List.find?_cons_of_neg (p := fun (sec : ATCSector) => sec.frequency = centerSector.frequency) _
          (by decide),
        List.find?_cons_of_pos (p := fun (sec : ATCSector) => sec.frequency = centerSector.frequency) _
          (by decide)]]
  have hact2 : (ATCController.update flatDist rng0 c1State a1).1.freq.active_sector
      = some centerSector := by
    rw [hupdfreq]; exact hset
  refine ⟨?_, ?_, ?_⟩
  · exact (C1_check_handoff flatDist rng0
      { c1State with freq := ⟨none, none, c1Sectors⟩ } a1).1 rfl
  · exact (C1_check_handoff flatDist rng0 c1State a1).2.1 centerSector hsome
  · exact (C1_check_handoff flatDist rng0 c1State a1).2.2 centerSector hsome hact2

/-- Without an active sector the handoff block does nothing. -/
theorem handoff_step_no_active (d : DistOracle) (rng : ℕ → Rng) (cst : ControllerState)
    (a : AircraftState) (h : cst.freq.active_sector = none) :
    handoff_step d rng cst a = (cst, []) := by
  rw [handoff_step, show check_handoff_needed d cst.freq a = none from by
    rw [check_handoff_needed, h]]

/-- `auto_step` never clears `cruise_check_done`. -/
theorem auto_step_cruise_flag (rng : ℕ → Rng) (cst : ControllerState) (a : AircraftState)
    (dd td : ℚ) (h : cst.cruise_check_done = true) :
    (auto_step rng cst a dd td).1.cruise_check_done = true := by
  rcases hp : cst.phase <;> simp only [auto_step, hp] <;> (try split_ifs) <;> simp_all

/-- `auto_step` never clears `tod_announced`. -/
theorem auto_step_tod_flag (rng : ℕ → Rng) (cst : ControllerState) (a : AircraftState)
    (dd td : ℚ) (h : cst.tod_announced = true) :
    (auto_step rng cst a dd td).1.tod_announced = true := by
  rcases hp : cst.phase <;> simp only [auto_step, hp] <;> (try split_ifs) <;> simp_all

/-- `auto_step` never decreases `descent_step`. -/
theorem auto_step_descent_mono (rng : ℕ → Rng) (cst : ControllerState) (a : AircraftState)
    (dd td : ℚ) : cst.descent_step ≤ (auto_step rng cst a dd td).1.descent_step := by
  rcases hp : cst.phase <;> simp only [auto_step, hp] <;> (try split_ifs) <;> simp_all

/-- `auto_step` clears `phase_announced` only at the automatic entries into
Cruise and Top of Descent. -/
theorem auto_step_announced (rng : ℕ → Rng) (cst : ControllerState) (a : AircraftState)
    (dd td : ℚ) (h : (auto_step rng cst a dd td).1.phase_announced = false) :
    cst.phase_announced = false ∨
    (cst.phase = ATCPhase.CLIMB ∧ (auto_step rng cst a dd td).1.phase = ATCPhase.CRUISE) ∨
    (cst.phase = ATCPhase.CRUISE ∧
      (auto_step rng cst a dd td).1.phase = ATCPhase.TOD_ADVISORY) := by
  rcases hp : cst.phase <;> simp only [auto_step, hp] at h ⊢ <;>
    (try split_ifs at h ⊢) <;> simp_all

/-- With both cruise flags set, the Cruise branch fires nothing. -/
theorem auto_step_cruise_idem (rng : ℕ → Rng) (cst : ControllerState) (a : AircraftState)
    (dd td : ℚ) (hp : cst.phase = ATCPhase.CRUISE) (h1 : cst.cruise_check_done = true)
    (h2 : cst.tod_announced = true) : auto_step rng cst a dd td = (cst, []) := by
  simp [auto_step, hp, h1, h2]

/-- With `phase_announced` set, the Takeoff Clearance branch fires nothing. -/
theorem auto_step_takeoff_idem (rng : ℕ → Rng) (cst : ControllerState) (a : AircraftState)
    (dd td : ℚ) (hp : cst.phase = ATCPhase.TAKEOFF_CLEARANCE)
    (h : cst.phase_announced = true) : auto_step rng cst a dd td = (cst, []) := by
  simp only [auto_step, hp]
  split_ifs <;> simp_all

/-- With `phase_announced` set, the Departure branch fires nothing. -/
theorem auto_step_departure_idem (rng : ℕ → Rng) (cst : ControllerState) (a : AircraftState)
    (dd td : ℚ) (hp : cst.phase = ATCPhase.DEPARTURE)
    (h : cst.phase_announced = true) : auto_step rng cst a dd td = (cst, []) := by
  simp only [auto_step, hp]
  split_ifs <;> simp_all

/-- With `phase_announced` set, the Approach branch fires nothing. -/
theorem auto_step_approach_idem (rng : ℕ → Rng) (cst : ControllerState) (a : AircraftState)
    (dd td : ℚ) (hp : cst.phase = ATCPhase.APPROACH)
    (h : cst.phase_announced = true) : auto_step rng cst a dd td = (cst, []) := by
  simp only [auto_step, hp]
  split_ifs <;> simp_all

/-- Flags reaching `auto_step` inside `update` equal the caller's flags. -/
theorem update_pre_auto (d : DistOracle) (rng : ℕ → Rng) (cst : ControllerState)
    (a : AircraftState) :
    (handoff_step d rng (airspace_step d cst a).1 a).1.phase = cst.phase ∧
    (handoff_step d rng (airspace_step d cst a).1 a).1.phase_announced = cst.phase_announced ∧
    (handoff_step d rng (airspace_step d cst a).1 a).1.cruise_check_done
      = cst.cruise_check_done ∧
    (handoff_step d rng (airspace_step d cst a).1 a).1.tod_announced = cst.tod_announced ∧
    (handoff_step d rng (airspace_step d cst a).1 a).1.descent_step = cst.descent_step := by
  have h := handoff_step_frame d rng (airspace_step d cst a).1 a
  have hA : (airspace_step d cst a).1.phase = cst.phase ∧
      (airspace_step d cst a).1.phase_announced = cst.phase_announced ∧
      (airspace_step d cst a).1.cruise_check_done = cst.cruise_check_done ∧
      (airspace_step d cst a).1.tod_announced = cst.tod_announced ∧
      (airspace_step d cst a).1.descent_step = cst.descent_step := by
    rw [airspace_step_state]
    exact ⟨rfl, rfl, rfl, rfl, rfl⟩
  exact ⟨h.1.trans hA.1, h.2.1.trans hA.2.1, h.2.2.1.trans hA.2.2.1,
    h.2.2.2.1.trans hA.2.2.2.1, h.2.2.2.2.1.trans hA.2.2.2.2⟩

/-- `update` unpacks to `auto_step` after the airspace and handoff blocks. -/
theorem update_unfold (d : DistOracle) (rng : ℕ → Rng) (cst : ControllerState)
    (a : AircraftState) :
    (ATCController.update d rng cst a).1 =
      (auto_step rng (handoff_step d rng (airspace_step d cst a).1 a).1 a
        (d a (cst.dest_lat, cst.dest_lon)) cst.flight_plan.get_tod_distance).1 := rfl

/-- `update` on the C3 counterexample state: the phase enters Cruise and
nothing else changes but `phase_announced`. -/
theorem c3_update_eq :
    (ATCController.update flatDist rng0 c3State a3).1 =
      { (airspace_step flatDist c3State a3).1 with
        phase := ATCPhase.CRUISE, phase_announced := false } := by
  rw [update_unfold,
    handoff_step_no_active flatDist rng0 (airspace_step flatDist c3State a3).1 a3
      (by rw [airspace_step_state]; rfl)]
  have hph : (airspace_step flatDist c3State a3).1.phase = ATCPhase.CLIMB := by
    rw [airspace_step_state]
    rfl
  simp only [auto_step, hph]
  rw [if_pos (show a3.altitude_msl >
      ((airspace_step flatDist c3State a3).1.flight_plan.cruise_altitude : ℚ) - 1000 from by
    rw [airspace_step_state]
    norm_num [a3, c3State, witnessState, demoFlightPlan, create_demo_flight_plan])]

/-- C3 counterexample: a single `update` that (re)enters Cruise leaves
`cruise_check_done` and `tod_announced` set — entering the owning phase does
not reset them. -/
theorem C3_flags_counterexample :
    c3State.phase = ATCPhase.CLIMB ∧
    c3State.cruise_check_done = true ∧
    c3State.tod_announced = true ∧
    (ATCController.update flatDist rng0 c3State a3).1.phase = ATCPhase.CRUISE ∧
    (ATCController.update flatDist rng0 c3State a3).1.cruise_check_done = true ∧
    (ATCController.update flatDist rng0 c3State a3).1.tod_announced = true := by
  refine ⟨rfl, rfl, rfl, ?_, ?_, ?_⟩ <;> rw [c3_update_eq, airspace_step_state] <;> rfl

/-- C3 (amended): each idempotency flag blocks its automatic transition
while it is set; `phase_announced` is cleared by `update` only at the
automatic entries into Cruise and Top of Descent; `cruise_check_done` and
`tod_announced` are never cleared by `update` (in particular re-entering
Cruise does not reset them); `descent_step` never decreases across
`update`, and `request_descent` sets it to 1 on entering Descent. -/
theorem C3_flags_amended (d : DistOracle) (rng : ℕ → Rng) (cst : ControllerState)
    (a : AircraftState) (dd td : ℚ) :
    ((ATCController.update d rng cst a).1.cruise_check_done = false →
      cst.cruise_check_done = false) ∧
    ((ATCController.update d rng cst a).1.tod_announced = false →
      cst.tod_announced = false) ∧
    cst.descent_step ≤ (ATCController.update d rng cst a).1.descent_step ∧
    ((ATCController.update d rng cst a).1.phase_announced = false →
      cst.phase_announced = false ∨
      (cst.phase = ATCPhase.CLIMB ∧
        (ATCController.update d rng cst a).1.phase = ATCPhase.CRUISE) ∨
      (cst.phase = ATCPhase.CRUISE ∧
        (ATCController.update d rng cst a).1.phase = ATCPhase.TOD_ADVISORY)) ∧
    (cst.phase = ATCPhase.CRUISE → cst.cruise_check_done = true → cst.tod_announced = true →
      auto_step rng cst a dd td = (cst, [])) ∧
    (cst.phase = ATCPhase.TAKEOFF_CLEARANCE → cst.phase_announced = true →
      auto_step rng cst a dd td = (cst, [])) ∧
    (cst.phase = ATCPhase.DEPARTURE → cst.phase_announced = true →
      auto_step rng cst a dd td = (cst, [])) ∧
    (cst.phase = ATCPhase.APPROACH → cst.phase_announced = true →
      auto_step rng cst a dd td = (cst, [])) ∧
    ((cst.phase = ATCPhase.CRUISE ∨ cst.phase = ATCPhase.TOD_ADVISORY) →
      (request_descent rng cst).1.descent_step = 1 ∧
      (request_descent rng cst).1.phase = ATCPhase.DESCENT) := by
  have pre := update_pre_auto d rng cst a
  refine ⟨?_, ?_, ?_, ?_, auto_step_cruise_idem rng cst a dd td,
    auto_step_takeoff_idem rng cst a dd td, auto_step_departure_idem rng cst a dd td,
    auto_step_approach_idem rng cst a dd td, ?_⟩
  · intro h
    by_contra hc
    rw [Bool.not_eq_false] at hc
    have hkeep := auto_step_cruise_flag rng
      (handoff_step d rng (airspace_step d cst a).1 a).1 a
      (d a (cst.dest_lat, cst.dest_lon))
      cst.flight_plan.get_tod_distance (pre.2.2.1.trans hc)
    rw [update_unfold] at h
    exact absurd h (by simp [hkeep])
  · intro h
    by_contra hc
    rw [Bool.not_eq_false] at hc
    have hkeep := auto_step_tod_flag rng
      (handoff_step d rng (airspace_step d cst a).1 a).1 a
      (d a (cst.dest_lat, cst.dest_lon))
      cst.flight_plan.get_tod_distance (pre.2.2.2.1.trans hc)
    rw [update_unfold] at h
    exact absurd h (by simp [hkeep])
  · have hmono := auto_step_descent_mono rng
      (handoff_step d rng (airspace_step d cst a).1 a).1 a
      (d a (cst.dest_lat, cst.dest_lon)) cst.flight_plan.get_tod_distance
    rw [pre.2.2.2.2] at hmono
    rw [update_unfold]
    exact hmono
  · intro h
    rw [update_unfold] at h ⊢
    have := auto_step_announced rng
      (handoff_step d rng (airspace_step d cst a).1 a).1 a
      (d a (cst.dest_lat, cst.dest_lon)) cst.flight_plan.get_tod_distance h
    rw [pre.1, pre.2.1] at this
    exact this
  · intro h
    rw [request_descent, if_pos h]
    exact ⟨rfl, rfl⟩

/-- Witness for the amended C3 at concrete states: a Cold & Dark update
leaves `cruise_check_done` clear, the Cruise branch with both flags set is
a no-op, and `request_descent` from Cruise enters Descent with
`descent_step = 1`. -/
theorem C3_flags_amended_witness :
    witnessState.cruise_check_done = false ∧
    auto_step rng0 cruiseDoneState a3 0 0 = (cruiseDoneState, []) ∧
    (request_descent rng0 cruiseState).1.descent_step = 1 ∧
    (request_descent rng0 cruiseState).1.phase = ATCPhase.DESCENT := by
  have h1 := C3_flags_amended flatDist rng0 witnessState a3 0 0
  have h2 := C3_flags_amended flatDist rng0 cruiseDoneState a3 0 0
  have h3 := C3_flags_amended flatDist rng0 cruiseState a3 0 0
  have pre := update_pre_auto flatDist rng0 witnessState a3
  have hcc : (ATCController.update flatDist rng0 witnessState a3).1.cruise_check_done
      = false := by
    rw [update_unfold]
    have hph : (handoff_step flatDist rng0 (airspace_step flatDist witnessState a3).1
        a3).1.phase = ATCPhase.COLD_AND_DARK := pre.1.trans rfl
    simp only [auto_step, hph]
    exact pre.2.2.1.trans rfl
  exact ⟨h1.1 hcc, h2.2.2.2.2.1 rfl rfl rfl,
    (h3.2.2.2.2.2.2.2.2 (Or.inl rfl)).1, (h3.2.2.2.2.2.2.2.2 (Or.inl rfl)).2⟩
